import Mathlib

/-!
Shallow embedding of the Hungarian Tarokk rules engine
(repository palbert75/hungarian_tarock, directory src/server/).

Each definition mirrors one Python function or model from the source; the
originating file and symbol are named in the doc comments.  Machine values
are embedded as Nat/Int, Python lists as List, Python dicts keyed by seat
as List or functions, and raising code as Except.
-/

/-- Embedding of the `Suit` enum in src/server/models/card.py. -/
inductive Suit
  | hearts
  | diamonds
  | spades
  | clubs
  | tarokk
  deriving DecidableEq, Repr

/-- Embedding of the `CardType` enum in src/server/models/card.py. -/
inductive CardType
  | honour
  | king
  | tarokk
  | suit
  deriving DecidableEq, Repr

/-- Embedding of the `Card` pydantic model in src/server/models/card.py.
The `id` field (a UUID used only for wire identity) is dropped; `rank`
stays a string exactly as in the source. -/
structure Card where
  suit : Suit
  rank : String
  points : Nat
  card_type : CardType
  deriving DecidableEq, Repr

/-- Embedding of `Card.is_tarokk`. -/
def Card.is_tarokk (c : Card) : Bool :=
  c.suit == Suit.tarokk

/-- Embedding of `Card.is_honour`: a tarokk whose rank is skiz, XXI or I. -/
def Card.is_honour (c : Card) : Bool :=
  c.is_tarokk && (c.rank == "skiz" || c.rank == "XXI" || c.rank == "I")

/-- Embedding of `Card.is_king`. -/
def Card.is_king (c : Card) : Bool :=
  c.card_type == CardType.king

/-- Embedding of `Card.tarokk_value` (src/server/models/card.py lines
94-127): skiz is 22, XXI down to II are 21..2, pagat (I) is 1, anything
else (including non-tarokk cards) is 0. -/
def Card.tarokk_value (c : Card) : Nat :=
  if c.is_tarokk = false then 0
  else
    match c.rank with
    | "skiz" => 22
    | "XXI" => 21
    | "XX" => 20
    | "XIX" => 19
    | "XVIII" => 18
    | "XVII" => 17
    | "XVI" => 16
    | "XV" => 15
    | "XIV" => 14
    | "XIII" => 13
    | "XII" => 12
    | "XI" => 11
    | "X" => 10
    | "IX" => 9
    | "VIII" => 8
    | "VII" => 7
    | "VI" => 6
    | "V" => 5
    | "IV" => 4
    | "III" => 3
    | "II" => 2
    | "I" => 1
    | _ => 0

/-- Embedding of `Card.suit_rank_value` (src/server/models/card.py lines
129-144): King 5, Queen 4, Cavalier 3, Jack 2, Ten 1, 0 otherwise and for
tarokk cards. -/
def Card.suit_rank_value (c : Card) : Nat :=
  if c.is_tarokk then 0
  else
    match c.rank with
    | "K" => 5
    | "Q" => 4
    | "C" => 3
    | "J" => 2
    | "10" => 1
    | _ => 0

/-- Sum of the `points` of a list of cards, the `sum(c.points for c in ...)`
idiom used throughout the scoring code. -/
def sum_points (cards : List Card) : Nat :=
  (cards.map (fun c => c.points)).sum

/-- Embedding of the `Player` pydantic model in src/server/models/player.py.
The `id`, `name` and connection/lobby flags are dropped; the card zones and
role flags the rules engine reads are kept. -/
structure Player where
  position : Nat
  hand : List Card := []
  tricks_won : List Card := []
  discard_pile : List Card := []
  is_declarer : Bool := false
  is_partner : Bool := false
  partner_revealed : Bool := false
  deriving DecidableEq, Repr

/-- Embedding of `Player.get_total_points`: trick points plus discard
points. -/
def Player.get_total_points (p : Player) : Nat :=
  sum_points p.tricks_won + sum_points p.discard_pile

/-- Embedding of `Player.has_honour`. -/
def Player.has_honour (p : Player) : Bool :=
  p.hand.any (fun c => c.is_honour)

/-- Embedding of `get_legal_cards` in src/server/validation/rules.py lines
8-46: leading allows the whole hand; otherwise lead-suit cards if any,
else tarokk cards if any, else the whole hand. -/
def get_legal_cards (hand : List Card) (lead_suit : Suit) (is_first_card : Bool) : List Card :=
  if is_first_card then hand
  else
    let cards_of_lead_suit := hand.filter (fun c => c.suit == lead_suit)
    if cards_of_lead_suit.isEmpty = false then cards_of_lead_suit
    else
      let tarokks := hand.filter (fun c => c.is_tarokk)
      if tarokks.isEmpty = false then tarokks
      else hand

/-- Semantics of the Python builtin `max(iterable, key=key)` used by the
source: scan left to right keeping the current best, replacing it only on a
strictly greater key, so the first element attaining the maximal key is
returned; `none` on an empty list (where Python raises). -/
def max_by_key_first (key : α → Nat) : List α → Option α
  | [] => none
  | x :: xs => some (xs.foldl (fun best y => if key y > key best then y else best) x)

/-- Embedding of the `BidType` enum in src/server/models/bid.py. -/
inductive BidType
  | pass
  | three
  | two
  | one
  | solo
  | hold
  deriving DecidableEq, Repr

/-- Embedding of the `Bid` pydantic model in src/server/models/bid.py. -/
structure Bid where
  player_position : Nat
  bid_type : BidType
  game_value : Nat := 0
  talon_cards : Nat := 0
  deriving DecidableEq, Repr

/-- Embedding of `Bid._get_game_value`: Pass 0, Three 1, Two 2, One 3,
Solo 4, Hold 0 (later overwritten with the matched bid value). -/
def bid_type_game_value : BidType → Nat
  | BidType.pass => 0
  | BidType.three => 1
  | BidType.two => 2
  | BidType.one => 3
  | BidType.solo => 4
  | BidType.hold => 0

/-- Embedding of `Bid._get_talon_cards`: Pass 0, Three 3, Two 2, One 1,
Solo 0, Hold 0. -/
def bid_type_talon_cards : BidType → Nat
  | BidType.pass => 0
  | BidType.three => 3
  | BidType.two => 2
  | BidType.one => 1
  | BidType.solo => 0
  | BidType.hold => 0

/-- Embedding of the `Bid.__init__` constructor, which derives `game_value`
and `talon_cards` from the bid type. -/
def Bid.make (player_position : Nat) (bid_type : BidType) : Bid :=
  { player_position := player_position
    bid_type := bid_type
    game_value := bid_type_game_value bid_type
    talon_cards := bid_type_talon_cards bid_type }

/-- Embedding of `Bid.is_higher_than` (src/server/models/bid.py lines
62-85). -/
def Bid.is_higher_than (b : Bid) (other : Option Bid) : Bool :=
  match other with
  | none => b.bid_type != BidType.pass
  | some o =>
    if b.bid_type == BidType.pass || b.bid_type == BidType.hold then false
    else if o.bid_type == BidType.pass then true
    else b.game_value > o.game_value

/-- Embedding of `BiddingManager.get_highest_bid` in
src/server/game_logic/bidding.py lines 54-68 and of the identical
`GameState.get_highest_bid` in src/server/models/game_state.py lines
190-195: the maximum of the non-pass bids by `game_value`, computed with
Python `max`, which keeps the first of equal-valued entries. -/
def bidding_get_highest_bid (bid_history : List Bid) : Option Bid :=
  let non_pass_bids := bid_history.filter (fun b => b.bid_type != BidType.pass)
  max_by_key_first (fun b => b.game_value) non_pass_bids

/-- Embedding of the `AnnouncementType` enum in
src/server/models/announcement.py. -/
inductive AnnouncementType
  | trull
  | four_kings
  | double_game
  | volat
  | pagat_ultimo
  | xxi_catch
  deriving DecidableEq, Repr

/-- Embedding of the `Announcement` pydantic model in
src/server/models/announcement.py lines 18-30.  The model declares exactly
these three fields; in particular it declares no `contra` or `recontra`
field. -/
structure Announcement where
  player_position : Nat
  announcement_type : AnnouncementType
  announced : Bool := true
  deriving DecidableEq, Repr

/-- Embedding of `Announcement.get_points` (lines 32-46): Trull and
FourKings 2 announced / 1 silent, DoubleGame and Volat 0, PagatUltimo
10/5, XXICatch 42/21. -/
def Announcement.get_points (a : Announcement) : Nat :=
  match a.announcement_type with
  | AnnouncementType.trull => if a.announced then 2 else 1
  | AnnouncementType.four_kings => if a.announced then 2 else 1
  | AnnouncementType.double_game => 0
  | AnnouncementType.volat => 0
  | AnnouncementType.pagat_ultimo => if a.announced then 10 else 5
  | AnnouncementType.xxi_catch => if a.announced then 42 else 21

/-- Embedding of `Announcement.get_multiplier` (lines 48-59): announced
DoubleGame 2, announced Volat 3, everything else (including the silent
forms) 1. -/
def Announcement.get_multiplier (a : Announcement) : Nat :=
  if a.announcement_type == AnnouncementType.double_game then
    (if a.announced then 2 else 1)
  else if a.announcement_type == AnnouncementType.volat then
    (if a.announced then 3 else 1)
  else 1

/-- Message of the Python AttributeError raised when the undeclared
`contra` attribute is read off an `Announcement`. -/
def contra_attribute_error : String :=
  "AttributeError: Announcement has no field contra"

/-- Embedding of the attribute access `announcement.contra` performed by
`calculate_final_score` (src/server/game_logic/final_scoring.py lines 177
and 206).  The pydantic `Announcement` model declares only
`player_position`, `announcement_type` and `announced`, so this lookup
always raises AttributeError. -/
def Announcement.read_contra (_ : Announcement) : Except String Bool :=
  Except.error contra_attribute_error

/-- Embedding of the attribute access `announcement.recontra` (same lines
of final_scoring.py); like `contra` the field does not exist on the
model. -/
def Announcement.read_recontra (_ : Announcement) : Except String Bool :=
  Except.error "AttributeError: Announcement has no field recontra"

/-- Embedding of the per-trick record dicts stored in `trick_history`
(`cards` entries carry `player_position` and `card`). -/
structure PlayedCard where
  player_position : Nat
  card : Card
  deriving DecidableEq, Repr

/-- Embedding of a completed trick dict of `trick_history`: winner seat
plus the four played cards. -/
structure TrickRecord where
  winner : Nat
  cards : List PlayedCard
  deriving DecidableEq, Repr

/-- Embedding of `check_trull` in
src/server/game_logic/announcement_checker.py lines 8-25: the player's
tricks hold exactly 3 honours and their lowercased ranks form the set
containing skiz, xxi and i. -/
def check_trull (player : Player) : Bool :=
  let honours := player.tricks_won.filter (fun c => c.is_honour)
  if honours.length != 3 then false
  else
    let honour_ranks := honours.map (fun c => c.rank.toLower)
    ["skiz", "xxi", "i"].all (fun r => honour_ranks.contains r) &&
      honour_ranks.all (fun r => ["skiz", "xxi", "i"].contains r)

/-- Embedding of `check_four_kings` (lines 28-39). -/
def check_four_kings (player : Player) : Bool :=
  (player.tricks_won.filter (fun c => c.is_king)).length == 4

/-- Embedding of `check_double_game` (lines 42-52). -/
def check_double_game (team_points : Nat) : Bool :=
  team_points ≥ 71

/-- Embedding of `check_volat` (lines 55-65). -/
def check_volat (team_tricks : Nat) : Bool :=
  team_tricks == 9

/-- Embedding of `check_pagat_ultimo` (lines 68-97): trick 9 exists, its
winner is the announcer, and the announcer played tarokk I in it. -/
def check_pagat_ultimo (trick_history : List TrickRecord) (player_position : Nat) : Bool :=
  if trick_history.length < 9 then false
  else
    match trick_history.get? 8 with
    | none => false
    | some last_trick =>
      if last_trick.winner != player_position then false
      else
        last_trick.cards.any (fun ci =>
          ci.player_position == last_trick.winner &&
            ci.card.suit == Suit.tarokk && ci.card.rank == "I")

/-- Embedding of `check_xxi_catch` (lines 100-139): some trick won by the
announcer in which the announcer played skiz and another seat played
XXI. -/
def check_xxi_catch (trick_history : List TrickRecord) (player_position : Nat) : Bool :=
  trick_history.any (fun trick =>
    trick.winner == player_position &&
      (trick.cards.any (fun ci =>
        ci.player_position == player_position &&
          ci.card.suit == Suit.tarokk && ci.card.rank.toLower == "skiz")) &&
      (trick.cards.any (fun ci =>
        ci.player_position != player_position &&
          ci.card.suit == Suit.tarokk && ci.card.rank == "XXI")))

/-- Embedding of `check_announcement_achieved` (lines 142-194).  The
source indexes `players[announcement.player_position]`; the out-of-range
case (a Python IndexError) is embedded as `false`, and the theorems about
this function restrict seat numbers to the in-range region where the
embedding and the source agree. -/
def check_announcement_achieved (announcement : Announcement) (players : List Player)
    (declarer_position partner_position : Nat) (trick_history : List TrickRecord)
    (declarer_team_points opponent_team_points : Nat) : Bool :=
  match players.get? announcement.player_position with
  | none => false
  | some player =>
    let is_declarer_team :=
      player.position == declarer_position || player.position == partner_position
    match announcement.announcement_type with
    | AnnouncementType.trull => check_trull player
    | AnnouncementType.four_kings => check_four_kings player
    | AnnouncementType.double_game =>
      check_double_game (if is_declarer_team then declarer_team_points else opponent_team_points)
    | AnnouncementType.volat =>
      let team_tricks :=
        (players.filter (fun p =>
          ((p.position == declarer_position || p.position == partner_position))
            == is_declarer_team)).foldl (fun acc p => acc + p.tricks_won.length / 4) 0
      check_volat team_tricks
    | AnnouncementType.pagat_ultimo =>
      check_pagat_ultimo trick_history announcement.player_position
    | AnnouncementType.xxi_catch =>
      check_xxi_catch trick_history announcement.player_position

/-- Embedding of `check_silent_achievements` (lines 197-241): for each
player, a silent Trull or FourKings announcement is synthesized when that
player achieved it and never announced it.  The declarer and partner
arguments are accepted and ignored exactly as in the source. -/
def check_silent_achievements (players : List Player)
    (_declarer_position _partner_position : Nat)
    (announcements : List Announcement) : List Announcement :=
  let announced_types_by_player :=
    announcements.map (fun a => (a.player_position, a.announcement_type))
  players.foldl (fun acc player =>
    let acc :=
      if announced_types_by_player.contains (player.position, AnnouncementType.trull) = false
          && check_trull player then
        acc ++ [{ player_position := player.position
                  announcement_type := AnnouncementType.trull
                  announced := false }]
      else acc
    if announced_types_by_player.contains (player.position, AnnouncementType.four_kings) = false
        && check_four_kings player then
      acc ++ [{ player_position := player.position
                announcement_type := AnnouncementType.four_kings
                announced := false }]
    else acc) []

/-- Embedding of the `GamePhase` enum in src/server/models/game_state.py. -/
inductive GamePhase
  | waiting
  | dealing
  | bidding
  | talon_distribution
  | discarding
  | partner_call
  | announcements
  | playing
  | scoring
  | game_end
  deriving DecidableEq, Repr

/-- Embedding of the `GameState` pydantic model in
src/server/models/game_state.py.  The `game_id` and `deck` fields and the
announcement history are dropped; every field read or written by the
operations the claims are about is kept. -/
structure GameState where
  phase : GamePhase := GamePhase.waiting
  players : List Player := []
  talon : List Card := []
  dealer_position : Nat := 0
  current_turn : Nat := 0
  bid_history : List Bid := []
  declarer_position : Option Nat := none
  winning_bid : Option Bid := none
  called_card_rank : Option String := none
  partner_position : Option Nat := none
  partner_revealed : Bool := false
  current_trick : List (Nat × Card) := []
  trick_leader : Option Nat := none
  trick_number : Nat := 0
  announcements : List Announcement := []
  deriving DecidableEq, Repr

/-- Update of `players[pos]` by list index, the `self.players[pos]`
mutation idiom of the source; out-of-range indices leave the list
unchanged (the source never reaches that case on the paths embedded
here). -/
def modify_player_at (players : List Player) (pos : Nat) (f : Player → Player) : List Player :=
  match players.get? pos with
  | some p => players.set pos (f p)
  | none => players

/-- Embedding of `GameState.next_position`: counter-clockwise successor
seat. -/
def next_position (current : Nat) : Nat :=
  (current + 1) % 4

/-- Embedding of `GameState.get_highest_bid` (lines 190-195), which is the
same computation as `BiddingManager.get_highest_bid`. -/
def GameState.get_highest_bid (s : GameState) : Option Bid :=
  bidding_get_highest_bid s.bid_history

/-- Embedding of `GameState.end_bidding` (lines 218-223): the winning bid
is the highest bid; when one exists the declarer position is set and the
declarer flag is raised on that seat. -/
def GameState.end_bidding (s : GameState) : GameState :=
  match s.get_highest_bid with
  | some wb =>
    { s with winning_bid := some wb
             declarer_position := some wb.player_position
             players := modify_player_at s.players wb.player_position
               (fun p => { p with is_declarer := true }) }
  | none => { s with winning_bid := none }

/-- Embedding of `GameState.place_bid` (lines 131-188).  Python `raise
ValueError` paths become `Except.error`; on success the new state and the
created bid are returned. -/
def GameState.place_bid (s : GameState) (player_position : Nat) (bid_type : BidType) :
    Except String (GameState × Bid) :=
  if player_position != s.current_turn then
    Except.error "Not this player's turn to bid"
  else
    match s.players.get? player_position with
    | none => Except.error "Player not found"
    | some player =>
      if (bid_type != BidType.pass && bid_type != BidType.hold)
          && player.has_honour = false then
        Except.error "Player must have at least one honour to bid"
      else if bid_type == BidType.hold
          && (s.bid_history.any (fun b =>
                b.player_position == player_position
                  && b.bid_type != BidType.pass && b.bid_type != BidType.hold)) = false then
        Except.error "Cannot HOLD - player has not bid yet in this auction"
      else
        let bid0 := Bid.make player_position bid_type
        let bid :=
          if bid_type == BidType.hold then
            match s.get_highest_bid with
            | some highest_bid =>
              { bid0 with game_value := highest_bid.game_value
                          talon_cards := highest_bid.talon_cards }
            | none => bid0
          else bid0
        if (bid_type != BidType.pass && bid_type != BidType.hold)
            && bid.is_higher_than s.get_highest_bid = false then
          Except.error "Bid must be higher than current highest bid"
        else
          let s1 := { s with bid_history := s.bid_history ++ [bid] }
          if bid_type == BidType.solo then
            Except.ok (s1.end_bidding, bid)
          else
            Except.ok ({ s1 with current_turn := next_position s1.current_turn }, bid)

/-- Embedding of the partner-search loop of `GameState.call_partner`
(lines 292-297): walk the players in order and mark the first one holding
the named tarokk card as partner, returning the updated list and that
player's position; `none` when no seat holds the card. -/
def set_partner_first (tarokk_rank : String) : List Player → Option (List Player × Nat)
  | [] => none
  | p :: ps =>
    if p.hand.any (fun c => c.is_tarokk && c.rank == tarokk_rank) then
      some ({ p with is_partner := true } :: ps, p.position)
    else
      match set_partner_first tarokk_rank ps with
      | some (ps2, pos) => some (p :: ps2, pos)
      | none => none

/-- Embedding of `GameState.call_partner` (lines 278-299).  The source
mutates `self` in place and then may raise, so the embedding returns the
state as left behind together with the raised error (if any): the phase
and the called rank are assigned before the search for the holder, and
remain assigned when the search fails and ValueError is raised. -/
def GameState.call_partner (s : GameState) (tarokk_rank : String) :
    GameState × Option String :=
  match s.declarer_position with
  | none => (s, some "No declarer")
  | some _ =>
    let s1 := { s with phase := GamePhase.partner_call
                       called_card_rank := some tarokk_rank }
    match set_partner_first tarokk_rank s1.players with
    | some (players2, pos) =>
      ({ s1 with players := players2, partner_position := some pos }, none)
    | none => (s1, some "Called card not found in any player hand")

/-- Embedding of the remainder-distribution loop of
`GameState.distribute_talon` (lines 253-259): the i-th of the non-declarer
seats receives `cards_per_player` cards plus one extra while `i <
extra_cards`, sliced from `remaining` at the running card index. -/
def give_slices (remaining : List Card) (cards_per_player extra_cards : Nat) :
    List Nat → Nat → Nat → List (Nat × List Card)
  | [], _, _ => []
  | pos :: rest, i, card_index =>
    let cards_to_give := cards_per_player + (if i < extra_cards then 1 else 0)
    (pos, (remaining.drop card_index).take cards_to_give) ::
      give_slices remaining cards_per_player extra_cards rest (i + 1) (card_index + cards_to_give)

/-- Embedding of `GameState.distribute_talon` (lines 225-264): the
declarer takes `talon_cards` cards off the top of the talon, the rest is
split over the other three seats (listed in ascending seat order, as
`[i for i in range(4) if i != declarer]`) as evenly as possible with the
first `remainder` of them getting one extra card, every slice is appended
to the owning hand, and the talon is cleared. -/
def GameState.distribute_talon (s : GameState) :
    Except String (GameState × List (Nat × List Card)) :=
  match s.winning_bid, s.declarer_position with
  | some winning_bid, some declarer_position =>
    let s1 := { s with phase := GamePhase.talon_distribution }
    let declarer_cards_count := winning_bid.talon_cards
    let declarer_cards := s1.talon.take declarer_cards_count
    let declarer_players :=
      modify_player_at s1.players declarer_position
        (fun p => { p with hand := p.hand ++ declarer_cards })
    let s2 := { s1 with players := declarer_players }
    let remaining_cards := s1.talon.drop declarer_cards_count
    let other_positions := (List.range 4).filter (fun i => i != declarer_position)
    let cards_per_player := remaining_cards.length / 3
    let extra_cards := remaining_cards.length % 3
    let slices := give_slices remaining_cards cards_per_player extra_cards other_positions 0 0
    let s3 := slices.foldl (fun st pc =>
        { st with players := modify_player_at st.players pc.1
                    (fun p => { p with hand := p.hand ++ pc.2 }) }) s2
    let distribution := (declarer_position, declarer_cards) :: slices
    Except.ok ({ s3 with talon := [] }, distribution)
  | _, _ => Except.error "No winning bid or declarer"

/-- Embedding of `GameState._determine_trick_winner` (lines 427-439): the
first play with the maximal tarokk value wins when any tarokk was played,
otherwise the first play of the lead suit with the maximal suit rank
value; `none` when the relevant play list is empty (where Python `max`
would raise). -/
def determine_trick_winner (current_trick : List (Nat × Card)) (lead_suit : Suit) :
    Option Nat :=
  let tarokk_plays := current_trick.filter (fun pc => pc.2.is_tarokk)
  if tarokk_plays.isEmpty = false then
    (max_by_key_first (fun pc => pc.2.tarokk_value) tarokk_plays).map Prod.fst
  else
    let lead_suit_plays := current_trick.filter (fun pc => pc.2.suit == lead_suit)
    (max_by_key_first (fun pc => pc.2.suit_rank_value) lead_suit_plays).map Prod.fst

/-- Embedding of `GameState.calculate_scores` (lines 441-461): raises when
declarer or partner is unset, otherwise sums each player's
`get_total_points` — tricks plus discards, for the partner included — into
the declarer-team or opponent-team total by seat membership.  This is the
loop body, one step per player. -/
def total_points_step (declarer_position partner_position : Nat)
    (acc : Nat × Nat) (player : Player) : Nat × Nat :=
  if player.position == declarer_position || player.position == partner_position then
    (acc.1 + player.get_total_points, acc.2)
  else
    (acc.1, acc.2 + player.get_total_points)

/-- Body of `GameState.calculate_scores`: the loop over the players with
the step above, raising when declarer or partner is unset. -/
def GameState.calculate_scores (s : GameState) : Except String (Nat × Nat) :=
  match s.declarer_position, s.partner_position with
  | some d, some p => Except.ok (s.players.foldl (total_points_step d p) (0, 0))
  | _, _ => Except.error "No declarer or partner"

/-- Embedding of `GameState.declarer_team_wins` (lines 463-466). -/
def GameState.declarer_team_wins (s : GameState) : Except String Bool :=
  s.calculate_scores.map (fun dp => decide (dp.1 ≥ 48))

/-- Embedding of `calculate_team_scores` in
src/server/game_logic/final_scoring.py lines 13-57 (the function of the
same name in src/server/game_logic/scoring.py lines 26-67 is the same
computation): the declarer's tricks and discards and the partner's tricks
count for the declarer team, the partner's discards and the other two
seats' tricks and discards count for the opponents.  This is the loop
body, one step per player. -/
def team_scores_step (declarer_position partner_position : Nat)
    (acc : Nat × Nat) (player : Player) : Nat × Nat :=
  let tricks_points := sum_points player.tricks_won
  if player.position == declarer_position then
    (acc.1 + tricks_points + sum_points player.discard_pile, acc.2)
  else if player.position == partner_position then
    (acc.1 + tricks_points, acc.2 + sum_points player.discard_pile)
  else
    (acc.1, acc.2 + tricks_points + sum_points player.discard_pile)

/-- Body of `calculate_team_scores`: the loop over the players with the
step above. -/
def calculate_team_scores (players : List Player)
    (declarer_position partner_position : Nat) : Nat × Nat :=
  players.foldl (team_scores_step declarer_position partner_position) (0, 0)

/-- Embedding of `calculate_payments` in src/server/game_logic/scoring.py
lines 118-163 with the default `num_players = 4`, as the payment of each
seat (the Python dict maps exactly the seats of the two teams, i.e. all of
0-3 when declarer and partner are seats). -/
def calculate_payments (declarer_position partner_position : Nat)
    (game_value : Int) (winner : String) (pos : Nat) : Int :=
  let declarer_team_size : Nat :=
    if declarer_position = partner_position then 1 else 2
  let opponent_team :=
    (List.range 4).filter (fun i => i != declarer_position && i != partner_position)
  if winner == "declarer_team" then
    if pos = declarer_position ∨ pos = partner_position then
      game_value * (opponent_team.length : Int)
    else -game_value
  else
    if pos = declarer_position ∨ pos = partner_position then
      -game_value * (opponent_team.length : Int)
    else game_value * (declarer_team_size : Int)

/-- Update of the `player_scores` dict of `calculate_final_score`, held as
the list of the four seat scores: add `v` to entry `i` (out-of-range
indices, which the dict would reject, leave the list unchanged). -/
def score_add (scores : List Int) (i : Nat) (v : Int) : List Int :=
  match scores.get? i with
  | some x => scores.set i (x + v)
  | none => scores

/-- Embedding of the base-game payment loop of `calculate_final_score`
(src/server/game_logic/final_scoring.py lines 128-147): when the declarer
team won each of its members gains twice the final game value while each
opponent loses it once; when it lost each of its members loses twice the
final game value while each opponent gains it once. -/
def apply_base_payments (scores : List Int) (declarer_position partner_position : Nat)
    (declarer_won : Bool) (final_game_value : Nat) : List Int :=
  (List.range 4).foldl (fun sc i =>
    if declarer_won then
      if i == declarer_position || i == partner_position then
        score_add sc i ((final_game_value : Int) * 2)
      else
        score_add sc i (-(final_game_value : Int))
    else
      if i == declarer_position || i == partner_position then
        score_add sc i (-((final_game_value : Int) * 2))
      else
        score_add sc i (final_game_value : Int)) scores

/-- Embedding of the game-multiplier fold of `calculate_final_score`
(src/server/game_logic/final_scoring.py lines 116-121): starting from 1,
each achieved DoubleGame or Volat announcement replaces the multiplier by
its own `get_multiplier` when strictly larger.  This is the loop body. -/
def game_multiplier_step (game_multiplier : Nat) (a : Announcement) : Nat :=
  if a.announcement_type == AnnouncementType.double_game
      || a.announcement_type == AnnouncementType.volat then
    (if a.get_multiplier > game_multiplier then a.get_multiplier else game_multiplier)
  else game_multiplier

/-- The game-multiplier fold of `calculate_final_score`: the loop over the
achieved announcements with the step above, started at 1. -/
def game_multiplier_of (achieved_announcements : List Announcement) : Nat :=
  achieved_announcements.foldl game_multiplier_step 1

/-- Embedding of the achieved-announcement payment loop of
`calculate_final_score` (lines 152-169): for each opposing-team seat, the
announcing seat gains the announcement points and that seat loses them. -/
def apply_achieved_payment (scores : List Int) (declarer_position partner_position : Nat)
    (a : Announcement) : List Int :=
  let points : Int := a.get_points
  let player_pos := a.player_position
  if player_pos == declarer_position || player_pos == partner_position then
    (List.range 4).foldl (fun sc i =>
      if i != declarer_position && i != partner_position then
        score_add (score_add sc player_pos points) i (-points)
      else sc) scores
  else
    [declarer_position, partner_position].foldl (fun sc i =>
      score_add (score_add sc player_pos points) i (-points)) scores

/-- Embedding of the failed-announcement payment loop of
`calculate_final_score` (lines 182-198): signs of the achieved case
swapped — the announcing seat pays each opposing-team seat. -/
def apply_failed_payment (scores : List Int) (declarer_position partner_position : Nat)
    (a : Announcement) : List Int :=
  let points : Int := a.get_points
  let player_pos := a.player_position
  if player_pos == declarer_position || player_pos == partner_position then
    (List.range 4).foldl (fun sc i =>
      if i != declarer_position && i != partner_position then
        score_add (score_add sc player_pos (-points)) i points
      else sc) scores
  else
    [declarer_position, partner_position].foldl (fun sc i =>
      score_add (score_add sc player_pos (-points)) i points) scores

/-- Embedding of one entry of the `announcement_details` list built by
`calculate_final_score` (lines 171-179 and 200-208). -/
structure AnnouncementDetail where
  ann_type : AnnouncementType
  player_position : Nat
  announced : Bool
  points : Int
  achieved : Bool
  contra : Bool
  recontra : Bool
  deriving DecidableEq, Repr

/-- Embedding of the construction of one `announcement_details` dict
(lines 171-179 for achieved, 200-208 for failed announcements): the
`contra` and `recontra` values are read off the announcement, which raises
AttributeError because the model defines no such fields. -/
def build_detail (a : Announcement) (achieved : Bool) : Except String AnnouncementDetail := do
  let contra ← a.read_contra
  let recontra ← a.read_recontra
  Except.ok { ann_type := a.announcement_type
              player_position := a.player_position
              announced := a.announced
              points := if achieved then (a.get_points : Int) else -(a.get_points : Int)
              achieved := achieved
              contra := contra
              recontra := recontra }

/-- One iteration of an announcement payment loop of
`calculate_final_score`: apply the payment for the announcement, then
build its detail entry (which raises on the `contra` read). -/
def ann_payment_step (declarer_position partner_position : Nat) (achieved : Bool)
    (acc : List Int × List AnnouncementDetail) (a : Announcement) :
    Except String (List Int × List AnnouncementDetail) := do
  let sc :=
    if achieved then apply_achieved_payment acc.1 declarer_position partner_position a
    else apply_failed_payment acc.1 declarer_position partner_position a
  let detail ← build_detail a achieved
  Except.ok (sc, acc.2 ++ [detail])

/-- The announcement payment loops of `calculate_final_score` (lines
152-179 for the achieved list, 182-208 for the failed list). -/
def ann_payment_loop (declarer_position partner_position : Nat) (achieved : Bool)
    (anns : List Announcement) (acc : List Int × List AnnouncementDetail) :
    Except String (List Int × List AnnouncementDetail) :=
  anns.foldlM (ann_payment_step declarer_position partner_position achieved) acc

/-- Embedding of the dictionary returned by `calculate_final_score`
(lines 210-221). -/
structure FinalScoreResult where
  declarer_team_points : Nat
  opponent_team_points : Nat
  winner : String
  base_game_value : Nat
  game_multiplier : Nat
  final_game_value : Nat
  player_scores : List Int
  achieved_announcements : List Announcement
  failed_announcements : List Announcement
  announcement_details : List AnnouncementDetail
  deriving DecidableEq, Repr

/-- The achieved side of the partition loop of `calculate_final_score`
(lines 97-104): the announcements whose achievement check passed, in log
order. -/
def achieved_partition (players : List Player) (declarer_position partner_position : Nat)
    (trick_history : List TrickRecord) (declarer_team_points opponent_team_points : Nat)
    (announcements : List Announcement) : List Announcement :=
  announcements.filter (fun a =>
    check_announcement_achieved a players declarer_position partner_position
      trick_history declarer_team_points opponent_team_points)

/-- The failed side of the partition loop of `calculate_final_score`
(lines 97-104): the announcements whose achievement check failed, in log
order. -/
def failed_partition (players : List Player) (declarer_position partner_position : Nat)
    (trick_history : List TrickRecord) (declarer_team_points opponent_team_points : Nat)
    (announcements : List Announcement) : List Announcement :=
  announcements.filter (fun a =>
    !(check_announcement_achieved a players declarer_position partner_position
      trick_history declarer_team_points opponent_team_points))

/-- Embedding of `calculate_final_score` in
src/server/game_logic/final_scoring.py lines 60-221.  Python raising
becomes `Except.error`, so the result is the returned breakdown when the
function returns and the raised error otherwise. -/
def calculate_final_score (players : List Player)
    (declarer_position partner_position : Nat) (winning_bid : Bid)
    (announcements : List Announcement) (trick_history : List TrickRecord) :
    Except String FinalScoreResult := do
  let team_scores := calculate_team_scores players declarer_position partner_position
  let declarer_team_points := team_scores.1
  let opponent_team_points := team_scores.2
  let declarer_won := decide (declarer_team_points ≥ 48)
  let winning_team := if declarer_won then "declarer_team" else "opponent_team"
  let achieved_from_announced := achieved_partition players declarer_position
    partner_position trick_history declarer_team_points opponent_team_points announcements
  let failed_announcements := failed_partition players declarer_position
    partner_position trick_history declarer_team_points opponent_team_points announcements
  let silent_achievements :=
    check_silent_achievements players declarer_position partner_position announcements
  let achieved_announcements := achieved_from_announced ++ silent_achievements
  let base_game_value := winning_bid.game_value
  let game_multiplier := game_multiplier_of achieved_announcements
  let final_game_value := base_game_value * game_multiplier
  let scores0 : List Int := [50, 50, 50, 50]
  let scores1 :=
    apply_base_payments scores0 declarer_position partner_position declarer_won final_game_value
  let r1 ← ann_payment_loop declarer_position partner_position true
    achieved_announcements (scores1, [])
  let r2 ← ann_payment_loop declarer_position partner_position false
    failed_announcements r1
  Except.ok { declarer_team_points := declarer_team_points
              opponent_team_points := opponent_team_points
              winner := winning_team
              base_game_value := base_game_value
              game_multiplier := game_multiplier
              final_game_value := final_game_value
              player_scores := r2.1
              achieved_announcements := achieved_announcements
              failed_announcements := failed_announcements
              announcement_details := r2.2 }

deriving instance DecidableEq for Except

/-- Sample card: king of hearts (5 points). -/
def king_hearts : Card := ⟨Suit.hearts, "K", 5, CardType.king⟩

/-- Sample card: king of diamonds (5 points). -/
def king_diamonds : Card := ⟨Suit.diamonds, "K", 5, CardType.king⟩

/-- Sample card: king of spades (5 points). -/
def king_spades : Card := ⟨Suit.spades, "K", 5, CardType.king⟩

/-- Sample card: king of clubs (5 points). -/
def king_clubs : Card := ⟨Suit.clubs, "K", 5, CardType.king⟩

/-- Sample card: the skiz honour (5 points). -/
def tarokk_skiz : Card := ⟨Suit.tarokk, "skiz", 5, CardType.honour⟩

/-- Sample card: the XXI honour (5 points). -/
def tarokk_xxi : Card := ⟨Suit.tarokk, "XXI", 5, CardType.honour⟩

/-- Sample card: the pagat honour, rank I (5 points). -/
def tarokk_pagat : Card := ⟨Suit.tarokk, "I", 5, CardType.honour⟩

/-- Sample card: queen of hearts (4 points). -/
def queen_hearts : Card := ⟨Suit.hearts, "Q", 4, CardType.suit⟩

/-- Sample card: queen of diamonds (4 points). -/
def queen_diamonds : Card := ⟨Suit.diamonds, "Q", 4, CardType.suit⟩

/-- Sample card: queen of spades (4 points). -/
def queen_spades : Card := ⟨Suit.spades, "Q", 4, CardType.suit⟩

/-- Sample card: cavalier of hearts (3 points). -/
def cavalier_hearts : Card := ⟨Suit.hearts, "C", 3, CardType.suit⟩

/-- Sample card: ten of hearts (1 point). -/
def ten_hearts : Card := ⟨Suit.hearts, "10", 1, CardType.suit⟩

/-- Sample card: tarokk numeral XX (1 point). -/
def tarokk_xx : Card := ⟨Suit.tarokk, "XX", 1, CardType.tarokk⟩

/-- Sample card: tarokk numeral XIX (1 point). -/
def tarokk_xix : Card := ⟨Suit.tarokk, "XIX", 1, CardType.tarokk⟩

/-- Sample card: tarokk numeral II (1 point). -/
def tarokk_ii : Card := ⟨Suit.tarokk, "II", 1, CardType.tarokk⟩

/-- Four sample players with empty zones on seats 0-3. -/
def empty_players : List Player :=
  [{ position := 0 }, { position := 1 }, { position := 2 }, { position := 3 }]

/-- Sample declarer for the discard-attribution scenario: 46 trick points
(four kings, three honours, two queens, one cavalier), nothing
discarded. -/
def quirk_declarer : Player :=
  { position := 0
    tricks_won := [king_hearts, king_diamonds, king_spades, king_clubs,
      tarokk_skiz, tarokk_xxi, tarokk_pagat, queen_hearts, queen_diamonds,
      cavalier_hearts] }

/-- Sample partner for the discard-attribution scenario: no tricks, a
4-point queen in the discard pile. -/
def quirk_partner : Player :=
  { position := 1, discard_pile := [queen_spades] }

/-- Sample completed-hand state for the discard-attribution scenario:
declarer seat 0, partner seat 1, opponents empty-handed. -/
def quirk_state : GameState :=
  { phase := GamePhase.scoring
    players := [quirk_declarer, quirk_partner, { position := 2 }, { position := 3 }]
    declarer_position := some 0
    partner_position := some 1 }

/-- Sample state for the partner-call scenario: declarer on seat 0, no
seat holds the tarokk XX. -/
def call_state : GameState :=
  { phase := GamePhase.discarding
    players := [{ position := 0, hand := [tarokk_skiz, king_hearts] },
      { position := 1, hand := [tarokk_xix] }, { position := 2 }, { position := 3 }]
    declarer_position := some 0 }

/-- Sample auction state for the hold scenario: seat 0 bid Three, seat 1
overbid Two, and it is seat 0's turn again. -/
def hold_state : GameState :=
  { phase := GamePhase.bidding
    players := empty_players
    current_turn := 0
    bid_history := [Bid.make 0 BidType.three, Bid.make 1 BidType.two] }

/-- Sample state for the talon-distribution scenario: six talon cards,
declarer seat 2 with a winning Two bid. -/
def talon_state : GameState :=
  { phase := GamePhase.bidding
    players := empty_players
    talon := [king_hearts, king_diamonds, queen_hearts, queen_diamonds,
      cavalier_hearts, ten_hearts]
    declarer_position := some 2
    winning_bid := some (Bid.make 2 BidType.two) }

/-- Specification-side game multiplier, following the spec sentence for
the final game value: 3 when an achieved announced Volat is present, else
2 when an achieved announced DoubleGame is present, else 1 (silent
achievements contribute nothing). -/
def announced_max_multiplier (l : List Announcement) : Nat :=
  if l.any (fun a => a.announcement_type == AnnouncementType.volat && a.announced) then 3
  else if l.any (fun a => a.announcement_type == AnnouncementType.double_game && a.announced) then 2
  else 1

theorem announced_max_multiplier_le_three (l : List Announcement) :
    announced_max_multiplier l ≤ 3 := by
  unfold announced_max_multiplier
  split
  · omega
  · split <;> omega

theorem announced_max_multiplier_pos (l : List Announcement) :
    1 ≤ announced_max_multiplier l := by
  unfold announced_max_multiplier
  split
  · omega
  · split <;> omega

theorem le_game_multiplier_step (m : Nat) (a : Announcement) :
    m ≤ game_multiplier_step m a := by
  unfold game_multiplier_step
  split
  · split <;> omega
  · omega

theorem foldl_game_multiplier_step (l : List Announcement) :
    ∀ m : Nat, 1 ≤ m →
      l.foldl game_multiplier_step m = max m (announced_max_multiplier l) := by
  induction l with
  | nil =>
    intro m hm
    simp only [List.foldl_nil, announced_max_multiplier, List.any_nil, Bool.false_eq_true,
      if_false]
    omega
  | cons a l ih =>
    intro m hm
    rw [List.foldl_cons, ih (game_multiplier_step m a)
      (le_trans hm (le_game_multiplier_step m a))]
    cases htype : a.announcement_type <;> cases hann : a.announced <;>
      by_cases hb1 : (l.any fun x =>
          x.announcement_type == AnnouncementType.volat && x.announced) = true <;>
      by_cases hb2 : (l.any fun x =>
          x.announcement_type == AnnouncementType.double_game && x.announced) = true <;>
      simp [game_multiplier_step, announced_max_multiplier, Announcement.get_multiplier,
        htype, hann, hb1, hb2, List.any_cons, Nat.max_def] <;>
      first
        | omega
        | (split_ifs <;> omega)

/-- C5: the final game value is the winning bid's `gameValue` times the
single largest applicable multiplier — 3 for an achieved announced Volat,
2 for an achieved announced DoubleGame, 1 otherwise (silent achievements
contribute 1) — and never the cumulative product of both multipliers: the
code multiplier `game_multiplier_of`, which `calculate_final_score` plugs
into `final_game_value = base_game_value * game_multiplier`, equals the
specification multiplier `announced_max_multiplier` and is bounded by 3
(so 6, the cumulative product, is never reached). -/
theorem game_value_multiplier_is_max_not_cumulative
    (winning_bid : Bid) (achieved : List Announcement) :
    winning_bid.game_value * game_multiplier_of achieved
        = winning_bid.game_value * announced_max_multiplier achieved
      ∧ game_multiplier_of achieved = announced_max_multiplier achieved
      ∧ game_multiplier_of achieved ≤ 3 := by
  have h : game_multiplier_of achieved = announced_max_multiplier achieved := by
    rw [game_multiplier_of, foldl_game_multiplier_step achieved 1 (le_refl 1)]
    exact Nat.max_eq_right (announced_max_multiplier_pos achieved)
  exact ⟨by rw [h], h, by rw [h]; exact announced_max_multiplier_le_three achieved⟩

/-- C1: settlement is not zero sum — evaluation of the code at a failing
input.  With all four seats empty-handed, declarer seat 0, partner seat 1
and a winning Three bid (game value 1), `calculate_final_score` returns
the scores 48, 48, 51, 51, whose post-baseline deltas sum to -2, not 0;
and the `calculate_payments` map for a declarer-team win with game value 1
sums to 2, not 0.  (The winning side is credited the value twice per
member while the losing side is debited it only once per member.) -/
theorem settlement_not_zero_sum :
    (calculate_final_score empty_players 0 1 (Bid.make 0 BidType.three) [] []).map
        (fun r => r.player_scores) = Except.ok [48, 48, 51, 51]
      ∧ ([48, 48, 51, 51].map (fun x => x - 50)).sum = (-2 : Int)
      ∧ ((-2 : Int) = 0) = False
      ∧ ((List.range 4).map (calculate_payments 0 1 1 "declarer_team")).sum = (2 : Int)
      ∧ ((2 : Int) = 0) = False := by
  refine ⟨by decide, by decide, by simp, by decide, by simp⟩

/-- C3: contra does not double an announcement's exchanged point value in
the code — evaluation at the failing input.  The `Announcement` model has
no contra flag at all: its point value for an announced PagatUltimo is 10
unconditionally, and the only place `calculate_final_score` touches
contra is the attribute read embedded by `read_contra`, which raises
AttributeError rather than doubling anything. -/
theorem contra_never_doubles_announcement_value :
    (Announcement.mk 0 AnnouncementType.pagat_ultimo true).get_points = 10
      ∧ ((Announcement.mk 0 AnnouncementType.pagat_ultimo true).get_points = 20) = False
      ∧ (Announcement.mk 0 AnnouncementType.pagat_ultimo true).read_contra
          = Except.error contra_attribute_error := by
  refine ⟨by decide, by simp [Announcement.get_points], by decide⟩

/-- C6: a failing `callPartner` mutates the GameState — evaluation at the
failing input.  On `call_state` (declarer seat 0, no seat holding tarokk
XX), `call_partner` fails, yet the state it leaves behind has
`phase = partner_call` and `called_card_rank = some XX`, both different
from their pre-call values. -/
theorem call_partner_failure_mutates_state :
    (call_state.call_partner "XX").2.isSome = true
      ∧ (call_state.call_partner "XX").1.called_card_rank = some "XX"
      ∧ (call_state.call_partner "XX").1.phase = GamePhase.partner_call
      ∧ call_state.called_card_rank = none
      ∧ call_state.phase = GamePhase.discarding
      ∧ ((call_state.call_partner "XX").1 = call_state) = False := by
  refine ⟨by decide, by decide, by decide, by decide, by decide, by decide⟩

/-- C2 counterexample: the discard-point quirk is not used by the
declarer-team-wins check.  On `quirk_state` (declarer tricks worth 46,
partner discard worth 4) the quirk attribution of
`calculate_team_scores` gives the declarer team 46 points — short of the
48 needed — yet `GameState.declarer_team_wins`, which the game-over path
consults, answers `true` because `GameState.calculate_scores` counts the
partner's discard points for the declarer's team. -/
theorem declarer_team_wins_ignores_discard_quirk :
    calculate_team_scores quirk_state.players 0 1 = (46, 4)
      ∧ (46 < 48)
      ∧ quirk_state.declarer_position = some 0
      ∧ quirk_state.partner_position = some 1
      ∧ quirk_state.calculate_scores = Except.ok (50, 0)
      ∧ quirk_state.declarer_team_wins = Except.ok true := by
  refine ⟨by decide, by decide, by decide, by decide, by decide, by decide⟩

theorem except_bind_ok (a : α) (f : α → Except ε β) :
    (Except.ok a >>= f : Except ε β) = f a := rfl

theorem except_map_ok (f : α → β) (a : α) :
    (Except.map f (Except.ok a) : Except ε β) = Except.ok (f a) := rfl

theorem ann_payment_loop_nil (d p : Nat) (flag : Bool)
    (acc : List Int × List AnnouncementDetail) :
    ann_payment_loop d p flag [] acc = Except.ok acc := rfl

theorem achieved_partition_nil (players : List Player) (d p : Nat)
    (trick_history : List TrickRecord) (dtp otp : Nat) :
    achieved_partition players d p trick_history dtp otp [] = [] := rfl

theorem failed_partition_nil (players : List Player) (d p : Nat)
    (trick_history : List TrickRecord) (dtp otp : Nat) :
    failed_partition players d p trick_history dtp otp [] = [] := rfl

theorem team_scores_foldl (d p : Nat) (l : List Player) :
    ∀ a b : Nat,
      l.foldl (team_scores_step d p) (a, b) =
        (a + (l.map (fun pl =>
            if pl.position = d then sum_points pl.tricks_won + sum_points pl.discard_pile
            else if pl.position = p then sum_points pl.tricks_won
            else 0)).sum,
         b + (l.map (fun pl =>
            if pl.position = d then 0
            else if pl.position = p then sum_points pl.discard_pile
            else sum_points pl.tricks_won + sum_points pl.discard_pile)).sum) := by
  induction l with
  | nil => intro a b; simp
  | cons hd tl ih =>
    intro a b
    rw [List.foldl_cons]
    by_cases h1 : hd.position = d
    · have hb1 : (hd.position == d) = true := by simp [h1]
      simp only [team_scores_step, hb1, if_true, ih, List.map_cons, List.sum_cons]
      simp only [if_pos h1, Prod.mk.injEq]
      constructor <;> omega
    · by_cases h2 : hd.position = p
      · have hb1 : (hd.position == d) = false := by simp [h1]
        have hb2 : (hd.position == p) = true := by simp [h2]
        simp only [team_scores_step, hb1, hb2, Bool.false_eq_true, if_false, if_true, ih,
          List.map_cons, List.sum_cons]
        simp only [if_neg h1, if_pos h2, Prod.mk.injEq]
        constructor <;> omega
      · have hb1 : (hd.position == d) = false := by simp [h1]
        have hb2 : (hd.position == p) = false := by simp [h2]
        simp only [team_scores_step, hb1, hb2, Bool.false_eq_true, if_false, ih,
          List.map_cons, List.sum_cons]
        simp only [if_neg h1, if_neg h2, Prod.mk.injEq]
        constructor <;> omega

theorem total_points_foldl (d p : Nat) (l : List Player) :
    ∀ a b : Nat,
      l.foldl (total_points_step d p) (a, b) =
        (a + (l.map (fun pl =>
            if pl.position = d ∨ pl.position = p then pl.get_total_points else 0)).sum,
         b + (l.map (fun pl =>
            if pl.position = d ∨ pl.position = p then 0 else pl.get_total_points)).sum) := by
  induction l with
  | nil => intro a b; simp
  | cons hd tl ih =>
    intro a b
    rw [List.foldl_cons]
    by_cases h1 : hd.position = d ∨ hd.position = p
    · have hb : (hd.position == d || hd.position == p) = true := by
        rcases h1 with h | h <;> simp [h]
      simp only [total_points_step, hb, if_true, ih, List.map_cons, List.sum_cons,
        if_pos h1]
      simp only [Prod.mk.injEq]
      constructor <;> omega
    · have hb : (hd.position == d || hd.position == p) = false := by
        push_neg at h1
        simp [h1.1, h1.2]
      simp only [total_points_step, hb, Bool.false_eq_true, if_false, ih, List.map_cons,
        List.sum_cons, if_neg h1]
      simp only [Prod.mk.injEq]
      constructor <;> omega

/-- C2 (amended): the discard-point quirk holds inside the settlement
module — `calculate_team_scores` credits the declarer team with both
members' trick points plus only the declarer's discard points, and sends
the partner's discard points to the opponents, and `calculate_final_score`
decides its winner from exactly that attribution — while
`GameState.calculate_scores` (the basis of `GameState.declarer_team_wins`)
instead counts every team member's discard points, the partner's included,
for the declarer's team. -/
theorem team_point_attribution (players : List Player) (d p : Nat) :
    calculate_team_scores players d p =
        ((players.map (fun pl =>
            if pl.position = d then sum_points pl.tricks_won + sum_points pl.discard_pile
            else if pl.position = p then sum_points pl.tricks_won
            else 0)).sum,
         (players.map (fun pl =>
            if pl.position = d then 0
            else if pl.position = p then sum_points pl.discard_pile
            else sum_points pl.tricks_won + sum_points pl.discard_pile)).sum)
      ∧ (∀ s : GameState, s.players = players → s.declarer_position = some d →
          s.partner_position = some p →
          s.calculate_scores =
            Except.ok
              ((players.map (fun pl =>
                  if pl.position = d ∨ pl.position = p then pl.get_total_points else 0)).sum,
               (players.map (fun pl =>
                  if pl.position = d ∨ pl.position = p then 0 else pl.get_total_points)).sum)
          ∧ s.declarer_team_wins =
              Except.ok (decide ((players.map (fun pl =>
                if pl.position = d ∨ pl.position = p then pl.get_total_points else 0)).sum ≥ 48)))
      ∧ (∀ (winning_bid : Bid) (trick_history : List TrickRecord),
          check_silent_achievements players d p [] = [] →
          (calculate_final_score players d p winning_bid [] trick_history).map
              (fun r => r.winner)
            = Except.ok
                (if (calculate_team_scores players d p).1 ≥ 48 then "declarer_team"
                 else "opponent_team")) := by
  refine ⟨?_, ?_, ?_⟩
  · rw [calculate_team_scores, team_scores_foldl]
    simp
  · intro s hpl hd hp
    have hcs : s.calculate_scores =
        Except.ok
          ((players.map (fun pl =>
              if pl.position = d ∨ pl.position = p then pl.get_total_points else 0)).sum,
           (players.map (fun pl =>
              if pl.position = d ∨ pl.position = p then 0 else pl.get_total_points)).sum) := by
      simp only [GameState.calculate_scores, hd, hp, hpl]
      rw [total_points_foldl]
      simp
    refine ⟨hcs, ?_⟩
    rw [GameState.declarer_team_wins, hcs]
    rfl
  · intro winning_bid trick_history hsilent
    rw [calculate_final_score]
    simp only [achieved_partition_nil, failed_partition_nil, List.nil_append, hsilent,
      ann_payment_loop_nil, except_bind_ok]
    rw [calculate_team_scores]
    by_cases hwin : (players.foldl (team_scores_step d p) (0, 0)).1 ≥ 48
    · simp [except_map_ok, hwin]
    · simp [except_map_ok, hwin]

theorem team_point_attribution_witness :
    ({ players := empty_players, declarer_position := some 0,
       partner_position := some 1 : GameState }).calculate_scores
        = Except.ok
            ((empty_players.map (fun pl =>
                if pl.position = 0 ∨ pl.position = 1 then pl.get_total_points else 0)).sum,
             (empty_players.map (fun pl =>
                if pl.position = 0 ∨ pl.position = 1 then 0 else pl.get_total_points)).sum)
      ∧ (calculate_final_score empty_players 0 1 (Bid.make 0 BidType.three) [] []).map
            (fun r => r.winner)
          = Except.ok
              (if (calculate_team_scores empty_players 0 1).1 ≥ 48 then "declarer_team"
               else "opponent_team") := by
  have h := team_point_attribution empty_players 0 1
  exact ⟨(h.2.1 _ rfl rfl rfl).1, h.2.2 (Bid.make 0 BidType.three) [] (by decide)⟩

/-- C7: legal-card computation — if leading the whole hand is legal;
otherwise exactly the lead-suit cards when the hand holds any, else
exactly the tarokk cards when the hand holds any, else the whole hand; and
the result is never empty when the hand is not. -/
theorem legal_cards_cases (hand : List Card) (lead_suit : Suit) (b : Bool)
    (hne : hand ≠ []) :
    get_legal_cards hand lead_suit true = hand
      ∧ get_legal_cards hand lead_suit false =
          (if hand.filter (fun c => c.suit == lead_suit) ≠ [] then
             hand.filter (fun c => c.suit == lead_suit)
           else if hand.filter (fun c => c.is_tarokk) ≠ [] then
             hand.filter (fun c => c.is_tarokk)
           else hand)
      ∧ get_legal_cards hand lead_suit b ≠ [] := by
  have htrue : get_legal_cards hand lead_suit true = hand := by
    simp [get_legal_cards]
  have hfalse : get_legal_cards hand lead_suit false =
      (if hand.filter (fun c => c.suit == lead_suit) ≠ [] then
         hand.filter (fun c => c.suit == lead_suit)
       else if hand.filter (fun c => c.is_tarokk) ≠ [] then
         hand.filter (fun c => c.is_tarokk)
       else hand) := by
    by_cases h1 : hand.filter (fun c => c.suit == lead_suit) = []
    · by_cases h2 : hand.filter (fun c => c.is_tarokk) = []
      · simp [get_legal_cards, h1, h2]
      · simp [get_legal_cards, h1, h2, List.isEmpty_iff]
    · simp [get_legal_cards, h1, List.isEmpty_iff]
  refine ⟨htrue, hfalse, ?_⟩
  cases b with
  | false =>
    rw [hfalse]
    split_ifs with hA hB
    · exact hA
    · exact hB
    · exact hne
  | true =>
    rw [htrue]
    exact hne

theorem legal_cards_cases_witness :
    get_legal_cards [king_hearts, tarokk_xx] Suit.hearts false ≠ [] :=
  (legal_cards_cases [king_hearts, tarokk_xx] Suit.hearts false (by decide)).2.2

theorem ann_payment_loop_ne_nil (d p : Nat) (flag : Bool) (l : List Announcement)
    (acc : List Int × List AnnouncementDetail) (h : l ≠ []) :
    ann_payment_loop d p flag l acc = Except.error contra_attribute_error := by
  cases l with
  | nil => exact absurd rfl h
  | cons a as => rfl

theorem except_bind_error (e : ε) (f : α → Except ε β) :
    (Except.error e >>= f : Except ε β) = Except.error e := rfl

theorem filter_both_nil (q : α → Bool) (l : List α)
    (h1 : l.filter q = []) (h2 : l.filter (fun x => !(q x)) = []) : l = [] := by
  cases l with
  | nil => rfl
  | cons x xs =>
    cases hq : q x
    · simp [List.filter_cons, hq] at h2
    · simp [List.filter_cons, hq] at h1

/-- C4: whenever `calculate_final_score` evaluates at least one
announcement — whether from the announcements argument or synthesized as a
silent Trull/FourKings achievement — it raises AttributeError on the
undeclared `contra` attribute instead of returning a breakdown, and it
returns normally exactly when there are no announcements and no silent
achievements.  The seat bounds restrict the statement to the inputs on
which the embedding agrees with the Python indexing. -/
theorem calculate_final_score_attribute_error
    (players : List Player) (d p : Nat) (winning_bid : Bid)
    (announcements : List Announcement) (trick_history : List TrickRecord)
    (_hlen : players.length = 4) (_hd4 : d < 4) (_hp4 : p < 4)
    (_hpos : ∀ a ∈ announcements, a.player_position < 4) :
    (calculate_final_score players d p winning_bid announcements trick_history
          = Except.error contra_attribute_error
        ↔ (announcements ≠ []
            ∨ check_silent_achievements players d p announcements ≠ []))
      ∧ ((announcements = [] ∧ check_silent_achievements players d p announcements = []) →
          ∃ r, calculate_final_score players d p winning_bid announcements trick_history
            = Except.ok r) := by
  constructor
  · constructor
    · intro herr
      by_contra hcon
      push_neg at hcon
      obtain ⟨h1, h2⟩ := hcon
      subst h1
      rw [calculate_final_score] at herr
      simp only [achieved_partition_nil, failed_partition_nil, List.nil_append, h2,
        ann_payment_loop_nil, except_bind_ok] at herr
      exact Except.noConfusion herr
    · intro hne
      rw [calculate_final_score]
      rcases hne with hne | hne
      · rcases hA : achieved_partition players d p trick_history
            (calculate_team_scores players d p).1 (calculate_team_scores players d p).2
            announcements with _ | ⟨a0, arest⟩
        · rcases hF : failed_partition players d p trick_history
              (calculate_team_scores players d p).1 (calculate_team_scores players d p).2
              announcements with _ | ⟨f0, frest⟩
          · exact absurd (filter_both_nil _ announcements hA hF) hne
          · rcases hS : check_silent_achievements players d p announcements
                with _ | ⟨s0, srest⟩
            · simp only [List.nil_append, ann_payment_loop_nil, except_bind_ok]
              rw [ann_payment_loop_ne_nil d p false (f0 :: frest) _
                (List.cons_ne_nil f0 frest)]
              rfl
            · simp only [List.nil_append]
              rw [ann_payment_loop_ne_nil d p true (s0 :: srest) _
                (List.cons_ne_nil s0 srest)]
              rfl
        · rw [ann_payment_loop_ne_nil d p true ((a0 :: arest)
            ++ check_silent_achievements players d p announcements) _ (by simp)]
          rfl
      · rw [ann_payment_loop_ne_nil d p true (achieved_partition players d p trick_history
            (calculate_team_scores players d p).1 (calculate_team_scores players d p).2
            announcements ++ check_silent_achievements players d p announcements) _
          (fun hc => hne (List.append_eq_nil.mp hc).2)]
        rfl
  · rintro ⟨h1, h2⟩
    subst h1
    rw [calculate_final_score]
    simp only [achieved_partition_nil, failed_partition_nil, List.nil_append, h2,
      ann_payment_loop_nil, except_bind_ok]
    exact ⟨_, rfl⟩

theorem calculate_final_score_attribute_error_witness :
    calculate_final_score empty_players 0 1 (Bid.make 0 BidType.three)
        [⟨0, AnnouncementType.pagat_ultimo, true⟩] []
      = Except.error contra_attribute_error :=
  (calculate_final_score_attribute_error empty_players 0 1 (Bid.make 0 BidType.three)
      [⟨0, AnnouncementType.pagat_ultimo, true⟩] [] (by decide) (by decide) (by decide)
      (by decide)).1.mpr (Or.inl (by decide))

theorem max_by_key_first_spec (key : α → Nat) :
    ∀ (xs : List α) (x : α),
      ∃ m, max_by_key_first key (x :: xs) = some m ∧ m ∈ x :: xs ∧
        ∀ y ∈ x :: xs, key y ≤ key m := by
  intro xs
  induction xs with
  | nil =>
    intro x
    exact ⟨x, rfl, by simp, by simp⟩
  | cons y ys ih =>
    intro x
    have hstep : max_by_key_first key (x :: y :: ys)
        = max_by_key_first key ((if key y > key x then y else x) :: ys) := rfl
    obtain ⟨m, hm, hmem, hb⟩ := ih (if key y > key x then y else x)
    refine ⟨m, hstep.trans hm, ?_, ?_⟩
    · rcases List.mem_cons.mp hmem with h | h
      · by_cases hxy : key y > key x
        · rw [if_pos hxy] at h
          simp [h]
        · rw [if_neg hxy] at h
          simp [h]
      · simp [List.mem_cons_of_mem, h]
    · intro z hz
      rcases List.mem_cons.mp hz with rfl | hz2
      · have h1 : key z ≤ key (if key y > key z then y else z) := by
          by_cases hxy : key y > key z
          · rw [if_pos hxy]; omega
          · rw [if_neg hxy]
        exact le_trans h1 (hb _ (by simp))
      · rcases List.mem_cons.mp hz2 with rfl | hz3
        · have h1 : key z ≤ key (if key z > key x then z else x) := by
            by_cases hxy : key z > key x
            · rw [if_pos hxy]
            · rw [if_neg hxy]; omega
          exact le_trans h1 (hb _ (by simp))
        · exact hb z (List.mem_cons_of_mem _ hz3)

/-- C8: trick resolution — with exactly 4 plays and a lead suit, if any
tarokk was played the winner is the seat of the play with the strictly
highest `tarokk_value` (the total order with skiz above XXI down to pagat);
otherwise the winner is the seat of the play of the lead suit with the
strictly highest `suit_rank_value` (King down to Ten).  The Nodup
hypotheses state that the played trump values, resp. played lead-suit rank
values, are pairwise distinct, which holds for any trick drawn from the
42-card deck since no two cards repeat a rank within a suit; and
`determine_trick_winner` is a pure function of the plays and the lead
suit by construction. -/
theorem trick_winner_spec (trick : List (Nat × Card)) (lead_suit : Suit)
    (_h4 : trick.length = 4)
    (hT : ((trick.filter (fun pc => pc.2.is_tarokk)).map
      (fun pc => pc.2.tarokk_value)).Nodup)
    (hL : ((trick.filter (fun pc => pc.2.suit == lead_suit)).map
      (fun pc => pc.2.suit_rank_value)).Nodup) :
    (trick.filter (fun pc => pc.2.is_tarokk) ≠ [] →
      ∃ w, w ∈ trick.filter (fun pc => pc.2.is_tarokk)
        ∧ determine_trick_winner trick lead_suit = some w.1
        ∧ ∀ pc ∈ trick.filter (fun pc => pc.2.is_tarokk),
            pc ≠ w → pc.2.tarokk_value < w.2.tarokk_value)
    ∧ (trick.filter (fun pc => pc.2.is_tarokk) = [] →
        trick.filter (fun pc => pc.2.suit == lead_suit) ≠ [] →
        ∃ w, w ∈ trick.filter (fun pc => pc.2.suit == lead_suit)
          ∧ determine_trick_winner trick lead_suit = some w.1
          ∧ ∀ pc ∈ trick.filter (fun pc => pc.2.suit == lead_suit),
              pc ≠ w → pc.2.suit_rank_value < w.2.suit_rank_value) := by
  constructor
  · intro hTne
    rcases hTc : trick.filter (fun pc => pc.2.is_tarokk) with _ | ⟨t, ts⟩
    · exact absurd hTc hTne
    · obtain ⟨m, hm, hmem, hb⟩ := max_by_key_first_spec (fun pc => pc.2.tarokk_value) ts t
      refine ⟨m, hTc ▸ hmem, ?_, ?_⟩
      · rw [determine_trick_winner]
        rw [hTc]
        simp only [List.isEmpty_cons, hm, Option.map_some]
        simp
      · intro pc hpc hne
        have hle := hb pc (hTc ▸ hpc)
        have hkne : pc.2.tarokk_value ≠ m.2.tarokk_value := fun heq =>
          hne (List.inj_on_of_nodup_map hT hpc (hTc ▸ hmem) heq)
        exact lt_of_le_of_ne hle hkne
  · intro hTe hLne
    rcases hLc : trick.filter (fun pc => pc.2.suit == lead_suit) with _ | ⟨t, ts⟩
    · exact absurd hLc hLne
    · obtain ⟨m, hm, hmem, hb⟩ :=
        max_by_key_first_spec (fun pc => pc.2.suit_rank_value) ts t
      refine ⟨m, hLc ▸ hmem, ?_, ?_⟩
      · rw [determine_trick_winner]
        rw [hTe, hLc]
        simp only [List.isEmpty_nil, List.isEmpty_cons, hm, Option.map_some]
        rfl
      · intro pc hpc hne
        have hle := hb pc (hLc ▸ hpc)
        have hkne : pc.2.suit_rank_value ≠ m.2.suit_rank_value := fun heq =>
          hne (List.inj_on_of_nodup_map hL hpc (hLc ▸ hmem) heq)
        exact lt_of_le_of_ne hle hkne

theorem trick_winner_spec_witness :
    ∃ w, w ∈ ([(0, tarokk_xx), (1, tarokk_skiz), (2, king_hearts),
        (3, tarokk_ii)].filter (fun pc => pc.2.is_tarokk))
      ∧ determine_trick_winner
          [(0, tarokk_xx), (1, tarokk_skiz), (2, king_hearts), (3, tarokk_ii)]
          Suit.hearts = some w.1
      ∧ ∀ pc ∈ ([(0, tarokk_xx), (1, tarokk_skiz), (2, king_hearts),
          (3, tarokk_ii)].filter (fun pc => pc.2.is_tarokk)),
          pc ≠ w → pc.2.tarokk_value < w.2.tarokk_value :=
  (trick_winner_spec
      [(0, tarokk_xx), (1, tarokk_skiz), (2, king_hearts), (3, tarokk_ii)]
      Suit.hearts (by decide) (by decide) (by decide)).1 (by decide)

theorem modify_player_at_get_same (l : List Player) (i : Nat) (f : Player → Player) :
    (modify_player_at l i f)[i]? = l[i]?.map f := by
  unfold modify_player_at
  cases h : l.get? i with
  | none =>
    have h2 : l[i]? = none := by rw [← List.get?_eq_getElem?]; exact h
    simp [h2]
  | some p =>
    have h2 : l[i]? = some p := by rw [← List.get?_eq_getElem?]; exact h
    rw [List.getElem?_set_self']
    simp [h2]

theorem modify_player_at_get_ne (l : List Player) (i j : Nat) (f : Player → Player)
    (hij : i ≠ j) :
    (modify_player_at l i f)[j]? = l[j]? := by
  unfold modify_player_at
  cases h : l.get? i with
  | none => rfl
  | some p => exact List.getElem?_set_ne hij

theorem three_slices_join (r : List Card) (c0 c1 c2 : Nat)
    (hsum : c0 + c1 + c2 = r.length) :
    r.take c0 ++ ((r.drop c0).take c1 ++ (r.drop (c0 + c1)).take c2) = r := by
  have h2 : (r.drop (c0 + c1)).take c2 = r.drop (c0 + c1) := by
    rw [List.take_eq_self_iff]
    simp only [List.length_drop]
    omega
  rw [h2, List.drop_take_append_drop, List.take_append_drop]

theorem distribute_talon_core (s : GameState) (wb : Bid) (d o0 o1 o2 : Nat)
    (hw : s.winning_bid = some wb) (hd : s.declarer_position = some d)
    (hk : wb.talon_cards ≤ s.talon.length)
    (hothers : (List.range 4).filter (fun i => i != d) = [o0, o1, o2])
    (h0d : o0 ≠ d) (h1d : o1 ≠ d) (h2d : o2 ≠ d)
    (h01 : o0 ≠ o1) (h02 : o0 ≠ o2) (h12 : o1 ≠ o2) :
    ∃ s2 dist, s.distribute_talon = Except.ok (s2, dist)
      ∧ dist.head? = some (d, s.talon.take wb.talon_cards)
      ∧ (s.talon.take wb.talon_cards).length = wb.talon_cards
      ∧ (dist.map Prod.snd).flatten = s.talon
      ∧ dist.map Prod.fst = d :: (List.range 4).filter (fun i => i != d)
      ∧ (dist.drop 1).map (fun pc => pc.2.length) =
          [(s.talon.length - wb.talon_cards) / 3
              + (if 0 < (s.talon.length - wb.talon_cards) % 3 then 1 else 0),
           (s.talon.length - wb.talon_cards) / 3
              + (if 1 < (s.talon.length - wb.talon_cards) % 3 then 1 else 0),
           (s.talon.length - wb.talon_cards) / 3
              + (if 2 < (s.talon.length - wb.talon_cards) % 3 then 1 else 0)]
      ∧ s2.talon = []
      ∧ (∀ pc ∈ dist, s2.players[pc.1]? =
          s.players[pc.1]?.map (fun pl => { pl with hand := pl.hand ++ pc.2 })) := by
  simp only [GameState.distribute_talon, hw, hd, hothers, give_slices, List.foldl_cons,
    List.foldl_nil]
  refine ⟨_, _, rfl, rfl, ?_, ?_, ?_, ?_, rfl, ?_⟩
  · rw [List.length_take]
    omega
  · simp only [List.map_cons, List.map_nil, List.flatten_cons, List.flatten_nil,
      List.append_nil, Nat.zero_add, List.drop_zero]
    rw [three_slices_join (s.talon.drop wb.talon_cards) _ _ _ ?hsum]
    · exact List.take_append_drop _ _
    case hsum =>
      simp only [List.length_drop]
      split_ifs <;> omega
  · simp
  · simp only [List.drop_succ_cons, List.drop_zero, List.map_cons, List.map_nil,
      List.length_take, List.length_drop]
    have hmod : (s.talon.length - wb.talon_cards) % 3 < 3 := Nat.mod_lt _ (by omega)
    split_ifs <;> simp [Nat.min_def] <;> omega
  · intro pc hpc
    rcases List.mem_cons.mp hpc with rfl | hpc
    · rw [modify_player_at_get_ne _ o2 d _ h2d, modify_player_at_get_ne _ o1 d _ h1d,
        modify_player_at_get_ne _ o0 d _ h0d, modify_player_at_get_same]
    · rcases List.mem_cons.mp hpc with rfl | hpc
      · rw [modify_player_at_get_ne _ o2 o0 _ (Ne.symm h02),
          modify_player_at_get_ne _ o1 o0 _ (Ne.symm h01), modify_player_at_get_same,
          modify_player_at_get_ne _ d o0 _ (Ne.symm h0d)]
      · rcases List.mem_cons.mp hpc with rfl | hpc
        · rw [modify_player_at_get_ne _ o2 o1 _ (Ne.symm h12), modify_player_at_get_same,
            modify_player_at_get_ne _ o0 o1 _ h01,
            modify_player_at_get_ne _ d o1 _ (Ne.symm h1d)]
        · rcases List.mem_cons.mp hpc with rfl | hpc
          · rw [modify_player_at_get_same, modify_player_at_get_ne _ o1 o2 _ h12,
              modify_player_at_get_ne _ o0 o2 _ h02,
              modify_player_at_get_ne _ d o2 _ (Ne.symm h2d)]
          · exact absurd hpc (List.not_mem_nil pc)

/-- C9: talon distribution — the declarer receives exactly the winning
bid's `talon_cards` cards off the top of the talon, the remaining talon
cards are split as evenly as possible over the other three seats (listed
in ascending seat order, the turn order starting from seat 0) with the
first `remainder` of them getting one extra card, the concatenation of
all distributed piles is exactly the original talon (so each talon card
lands in exactly one seat's hand, which receives exactly its pile), and
the talon is empty afterwards. -/
theorem distribute_talon_spec (s : GameState) (wb : Bid) (d : Nat)
    (hw : s.winning_bid = some wb) (hd : s.declarer_position = some d)
    (hd4 : d < 4) (hk : wb.talon_cards ≤ s.talon.length) :
    ∃ s2 dist, s.distribute_talon = Except.ok (s2, dist)
      ∧ dist.head? = some (d, s.talon.take wb.talon_cards)
      ∧ (s.talon.take wb.talon_cards).length = wb.talon_cards
      ∧ (dist.map Prod.snd).flatten = s.talon
      ∧ dist.map Prod.fst = d :: (List.range 4).filter (fun i => i != d)
      ∧ (dist.drop 1).map (fun pc => pc.2.length) =
          [(s.talon.length - wb.talon_cards) / 3
              + (if 0 < (s.talon.length - wb.talon_cards) % 3 then 1 else 0),
           (s.talon.length - wb.talon_cards) / 3
              + (if 1 < (s.talon.length - wb.talon_cards) % 3 then 1 else 0),
           (s.talon.length - wb.talon_cards) / 3
              + (if 2 < (s.talon.length - wb.talon_cards) % 3 then 1 else 0)]
      ∧ s2.talon = []
      ∧ (∀ pc ∈ dist, s2.players[pc.1]? =
          s.players[pc.1]?.map (fun pl => { pl with hand := pl.hand ++ pc.2 })) := by
  have hcases : d = 0 ∨ d = 1 ∨ d = 2 ∨ d = 3 := by omega
  rcases hcases with rfl | rfl | rfl | rfl
  · exact distribute_talon_core s wb 0 1 2 3 hw hd hk (by decide) (by decide) (by decide)
      (by decide) (by decide) (by decide) (by decide)
  · exact distribute_talon_core s wb 1 0 2 3 hw hd hk (by decide) (by decide) (by decide)
      (by decide) (by decide) (by decide) (by decide)
  · exact distribute_talon_core s wb 2 0 1 3 hw hd hk (by decide) (by decide) (by decide)
      (by decide) (by decide) (by decide) (by decide)
  · exact distribute_talon_core s wb 3 0 1 2 hw hd hk (by decide) (by decide) (by decide)
      (by decide) (by decide) (by decide) (by decide)

theorem distribute_talon_spec_witness :
    ∃ s2 dist, talon_state.distribute_talon = Except.ok (s2, dist)
      ∧ dist.head? = some (2, talon_state.talon.take 2)
      ∧ (dist.map Prod.snd).flatten = talon_state.talon
      ∧ s2.talon = [] := by
  obtain ⟨s2, dist, h1, h2, _h3, h4, _h5, _h6, h7, _h8⟩ :=
    distribute_talon_spec talon_state (Bid.make 2 BidType.two) 2 rfl rfl (by decide)
      (by decide)
  exact ⟨s2, dist, h1, h2, h4, h7⟩

theorem max_by_key_first_append_some (key : α → Nat) (l : List α) (x m : α)
    (hm : max_by_key_first key l = some m) :
    max_by_key_first key (l ++ [x]) = some (if key x > key m then x else m) := by
  cases l with
  | nil => exact Option.noConfusion hm
  | cons a as =>
    simp only [max_by_key_first, Option.some.injEq] at hm
    simp only [max_by_key_first, List.cons_append, List.foldl_append, List.foldl_cons,
      List.foldl_nil, hm]

theorem bidding_get_highest_bid_append_some (l : List Bid) (b m : Bid)
    (hb : b.bid_type ≠ BidType.pass) (hm : bidding_get_highest_bid l = some m) :
    bidding_get_highest_bid (l ++ [b])
      = some (if b.game_value > m.game_value then b else m) := by
  have hbb : (b.bid_type != BidType.pass) = true := by simp [hb]
  simp only [bidding_get_highest_bid] at hm ⊢
  rw [List.filter_append]
  rw [show List.filter (fun x => x.bid_type != BidType.pass) [b] = [b] by
    simp [List.filter_cons, hbb]]
  exact max_by_key_first_append_some (fun x => x.game_value)
    (l.filter (fun x => x.bid_type != BidType.pass)) b m hm

theorem bidding_get_highest_bid_some_of_mem (l : List Bid) (b : Bid) (hmem : b ∈ l)
    (hb : b.bid_type ≠ BidType.pass) :
    ∃ m, bidding_get_highest_bid l = some m := by
  have hfmem : b ∈ l.filter (fun x => x.bid_type != BidType.pass) :=
    List.mem_filter.mpr ⟨hmem, by simp [hb]⟩
  rcases hf : l.filter (fun x => x.bid_type != BidType.pass) with _ | ⟨y, ys⟩
  · rw [hf] at hfmem
    exact absurd hfmem (List.not_mem_nil b)
  · have hrw : bidding_get_highest_bid l
        = max_by_key_first (fun x => x.game_value) (y :: ys) := by
      simp only [bidding_get_highest_bid]
      rw [hf]
    rw [hrw]
    exact ⟨_, rfl⟩

/-- C10: a HOLD never transfers declarership.  When `place_bid` accepts a
HOLD, the bid history grows by a HOLD bid carrying the same `game_value`
as the pre-HOLD highest bid `orig`, `get_highest_bid` (Python `max`, which
keeps the first of equal-valued entries in log order) still returns
`orig`, and `end_bidding` on the new history resolves the winning bid and
the declarer seat to `orig` and its bidder. -/
theorem end_bidding_fields (t : GameState) (m : Bid) (hm : t.get_highest_bid = some m) :
    t.end_bidding.winning_bid = some m
      ∧ t.end_bidding.declarer_position = some m.player_position := by
  simp [GameState.end_bidding, hm]

theorem hold_keeps_original_declarer (s : GameState) (pos : Nat)
    (s2 : GameState) (b : Bid)
    (h : s.place_bid pos BidType.hold = Except.ok (s2, b)) :
    ∃ orig, s.get_highest_bid = some orig
      ∧ s2.bid_history = s.bid_history ++ [b]
      ∧ b.bid_type = BidType.hold
      ∧ b.game_value = orig.game_value
      ∧ s2.get_highest_bid = some orig
      ∧ s2.end_bidding.winning_bid = some orig
      ∧ s2.end_bidding.declarer_position = some orig.player_position := by
  rw [GameState.place_bid] at h
  split at h
  · exact Except.noConfusion h
  · split at h
    · exact Except.noConfusion h
    · rename_i player hplayer
      split at h
      · exact Except.noConfusion h
      · split at h
        · exact Except.noConfusion h
        · rename_i hcond2
          have hany : s.bid_history.any (fun x =>
              x.player_position == pos && x.bid_type != BidType.pass
                && x.bid_type != BidType.hold) = true := by
            by_contra hno
            exact hcond2 (by simp_all)
          obtain ⟨b0, hb0mem, hb0prop⟩ := List.any_eq_true.mp hany
          have hb0pass : b0.bid_type ≠ BidType.pass := by
            intro hx
            simp [hx] at hb0prop
          obtain ⟨orig, horig⟩ :=
            bidding_get_highest_bid_some_of_mem s.bid_history b0 hb0mem hb0pass
          rw [show s.get_highest_bid = bidding_get_highest_bid s.bid_history from rfl,
            horig] at h
          simp at h
          obtain ⟨hs2, hb⟩ := h
          subst hs2
          subst hb
          refine ⟨orig, horig, rfl, rfl, rfl, ?_, ?_, ?_⟩
          · simp only [GameState.get_highest_bid]
            rw [bidding_get_highest_bid_append_some s.bid_history _ orig
              (by simp [Bid.make]) horig]
            simp
          · exact (end_bidding_fields _ orig (by
              simp only [GameState.get_highest_bid]
              rw [bidding_get_highest_bid_append_some s.bid_history _ orig
                (by simp [Bid.make]) horig]
              simp)).1
          · exact (end_bidding_fields _ orig (by
              simp only [GameState.get_highest_bid]
              rw [bidding_get_highest_bid_append_some s.bid_history _ orig
                (by simp [Bid.make]) horig]
              simp)).2

theorem hold_keeps_original_declarer_witness :
    ∃ s2 b, hold_state.place_bid 0 BidType.hold = Except.ok (s2, b)
      ∧ ∃ orig, hold_state.get_highest_bid = some orig
          ∧ s2.get_highest_bid = some orig
          ∧ b.game_value = orig.game_value
          ∧ s2.end_bidding.declarer_position = some orig.player_position
          ∧ orig = Bid.make 1 BidType.two := by
  have hEq : hold_state.place_bid 0 BidType.hold
      = Except.ok ({ hold_state with
          bid_history := hold_state.bid_history ++ [⟨0, BidType.hold, 2, 2⟩]
          current_turn := 1 }, (⟨0, BidType.hold, 2, 2⟩ : Bid)) := by decide
  obtain ⟨orig, hA, _hB, _hC, hD, hE, _hF, hG⟩ :=
    hold_keeps_original_declarer hold_state 0 _ _ hEq
  have horig_val : orig = Bid.make 1 BidType.two := by
    have hconc : hold_state.get_highest_bid = some (Bid.make 1 BidType.two) := by decide
    exact Option.some.inj (hA.symm.trans hconc)
  exact ⟨_, _, hEq, orig, hA, hE, hD, hG, horig_val⟩
